import Mathlib

/-!
Shallow embedding of the Knit Bingo client (njari/knittingbingo).

The embedded code lives in:
* `src/frontend/src/App.tsx` — application shell: auth flow, save, contribute,
  community-card loading, toast handling, per-cell text editing;
* `src/frontend/src/components/CommunityCarousel/CommunityCarousel.tsx` —
  community carousel: duplicated card list, auto-scroll tick, reveal-on-click;
* `src/frontend/src/components/BingoCard/BingoCard.tsx` and the unnamed
  revision `src/unnamed/part_002` — single card with toss/contribute button;
* the `BingoBoard` component (bundled after the carousel source, and the
  revision in `src/unnamed/part_001`) — 3x3 grid of cards.

React state updates are modelled as pure state transitions on an explicit
`AppState` record; network responses and DOM measurements are oracle
parameters of the transition functions; scheduled `setTimeout` callbacks are
returned as explicit `Timer` values and fired via `applyTimer`.
-/

namespace KnitBingo

/-- A board card as held in the shell state (`type BoardCard` in `App.tsx`):
`{ id: string; text: string; backgroundColor: string }`. -/
structure BoardCard where
  id : String
  text : String
  backgroundColor : String
deriving DecidableEq, Repr

/-- A community-carousel card (`CommunityCarouselCard` in
`CommunityCarousel.tsx`): `backgroundColor` and `textColor` are optional. -/
structure CommunityCarouselCard where
  id : String
  text : String
  backgroundColor : Option String
  textColor : Option String
deriving DecidableEq, Repr

/-- A screen rectangle as returned by `getBoundingClientRect()`. -/
structure Rect where
  x : ℚ
  y : ℚ
  w : ℚ
  h : ℚ
deriving DecidableEq, Repr

/-- A screen point. -/
structure Pt where
  x : ℚ
  y : ℚ
deriving DecidableEq, Repr

/-- The transient fly-ghost record (`type FlyGhost` in `App.tsx`); the source
field `from` is a Lean keyword, embedded here as `fromRect`, and `to` as
`toPt`. -/
structure FlyGhost where
  id : String
  text : String
  backgroundColor : String
  fromRect : Rect
  toPt : Pt
deriving DecidableEq, Repr

/-- The network requests the shell can issue (section 6 of the spec; the
`fetch` calls in `App.tsx`). -/
inductive NetworkCall where
  | postMagicLink (email : String)
  | getMagicLinkCallback (code : String)
  | putBingo3x3 (cards : List BoardCard)
  | postContribute (card : BoardCard)
  | getCommunityCards
deriving DecidableEq, Repr

/-- The callbacks scheduled with `window.setTimeout` in `showAuthToast`. -/
inductive TimerAction where
  | pulseOff
  | dismissToast
deriving DecidableEq, Repr

/-- A scheduled timeout: delay in milliseconds plus the callback it runs. -/
structure Timer where
  delayMs : Nat
  action : TimerAction
deriving DecidableEq, Repr

/-- An HTTP response as observed by the shell: `resp.ok`, `resp.status`, and
the parsed JSON body's optional `message` field. -/
structure HttpResp where
  ok : Bool
  status : Nat
  message : Option String
deriving DecidableEq, Repr

/-- Outcome of the `community/cards` fetch as `loadCommunityCards` observes
it: a non-OK response (or a rejected fetch / JSON parse, which aborts the
function the same way, with no state written), an OK response whose `cards`
field is not an array, or an OK response with an array of cards. -/
inductive CommunityFetch where
  | notOk
  | okNoArray
  | okArray (cards : List CommunityCarouselCard)
deriving DecidableEq, Repr

/-- The shell-owned state of `App` in `App.tsx`: every `useState` slot, plus
the `VITE_API_URL` configuration value. -/
structure AppState where
  apiUrl : Option String
  email : String
  error : Option String
  magicLink : Option String
  magicCode : String
  token : Option String
  communityCards : List CommunityCarouselCard
  toast : Option String
  pulseEmail : Bool
  flyGhost : Option FlyGhost
  draftBoard : List BoardCard
  savedBoard : List BoardCard
deriving DecidableEq, Repr

/-- Result of one shell event handler: the next state, the network calls it
issued, and the timeouts it scheduled. -/
structure StepResult where
  state : AppState
  calls : List NetworkCall
  timers : List Timer
deriving DecidableEq, Repr

/-- `DEFAULT_COLORS` from `App.tsx`. -/
def DEFAULT_COLORS : List String :=
  ["#FFF4E6", "#F3F8FF", "#F7F0FF", "#F0FFF6", "#FFF0F5",
   "#FFF8E1", "#EAF7F7", "#F5F5FF", "#FFF1E6"]

/-- The fifteen default community card texts from `App.tsx`. -/
def defaultCommunityTexts : List String :=
  ["Tangled yarn? Breathe.",
   "Try a new stitch today",
   "Knit 5 rows mindfully",
   "Fix one tiny mistake",
   "Cast on something bold",
   "Swatch before you commit",
   "Take a progress photo",
   "Block it. Trust the process.",
   "Weave in ends (future you says thanks)",
   "Celebrate small wins",
   "Learn one new technique",
   "Use the fancy yarn",
   "Count your stitches twice",
   "Make it cozy",
   "Toss perfectionism into the universe"]

/-- `DEFAULT_COMMUNITY_CARDS` from `App.tsx`: fifteen cards with ids
`default-1` .. `default-15`, the texts above, and colors cycling through
`DEFAULT_COLORS`. -/
def DEFAULT_COMMUNITY_CARDS : List CommunityCarouselCard :=
  (List.range 15).map fun i =>
    { id := "default-" ++ toString (i + 1)
      text := defaultCommunityTexts.getD i ""
      backgroundColor := some (DEFAULT_COLORS.getD (i % DEFAULT_COLORS.length) "")
      textColor := none }

/-- `createEmptyBoard` from `App.tsx`: nine cards with ids `"1"` .. `"9"`,
empty text, and the default colors in order. -/
def createEmptyBoard : List BoardCard :=
  (List.range 9).map fun i =>
    { id := toString (i + 1), text := "", backgroundColor := DEFAULT_COLORS.getD i "" }

/-- `emailHasPlus` in `App.tsx`: `email.includes('+')`. For the single
character `+`, the JavaScript substring test holds exactly when the character
occurs among the string's characters, embedded here as membership in the
string's character list. -/
def emailHasPlus (email : String) : Bool :=
  email.data.contains '+'

/-- The `disabled` condition of the "Send magic code" button in `App.tsx`:
`!email || emailHasPlus`. -/
def sendMagicCodeDisabled (email : String) : Bool :=
  email.isEmpty || emailHasPlus email

/-- `showAuthToast` from `App.tsx`: sets the toast message, starts the email
pulse, and schedules the pulse-off (900 ms) and toast auto-dismiss (2800 ms)
timeouts. -/
def showAuthToast (s : AppState) : AppState × List Timer :=
  ({ s with toast := some "Log in to contribute and save your bingo.", pulseEmail := true },
   [⟨900, .pulseOff⟩, ⟨2800, .dismissToast⟩])

/-- Firing one of the timeouts scheduled by `showAuthToast`. -/
def applyTimer (s : AppState) : TimerAction → AppState
  | .pulseOff => { s with pulseEmail := false }
  | .dismissToast => { s with toast := none }

/-- `requestMagicLink` from `App.tsx`. `resp` is the oracle for the
`POST auth/magic-link` response; it is consulted only on the branch that
actually issues the request. -/
def requestMagicLink (s : AppState) (resp : HttpResp) : StepResult :=
  let s := { s with error := none, magicLink := none }
  match s.apiUrl with
  | none => ⟨{ s with error := some "Missing VITE_API_URL (set it in frontend/.env)" }, [], []⟩
  | some _ =>
    if emailHasPlus s.email then
      ⟨{ s with error := some "Email must not contain \x27+\x27" }, [], []⟩
    else if resp.ok = false then
      ⟨{ s with error := some (resp.message.getD ("Request failed (" ++ toString resp.status ++ ")")) },
       [.postMagicLink s.email], []⟩
    else
      ⟨{ s with magicLink := some "you can\x27t see this", magicCode := "" },
       [.postMagicLink s.email], []⟩

/-- `saveBoardToBackend` from `App.tsx`. `resp` is the oracle for the
`PUT bingo3x3` response. -/
def saveBoardToBackend (s : AppState) (resp : HttpResp) : StepResult :=
  let s := { s with error := none }
  match s.apiUrl with
  | none => ⟨{ s with error := some "Missing VITE_API_URL (set it in frontend/.env)" }, [], []⟩
  | some _ =>
    match s.token with
    | none =>
      let r := showAuthToast s
      ⟨r.1, [], r.2⟩
    | some _ =>
      if resp.ok = false then
        ⟨{ s with error := some (resp.message.getD ("Save failed (" ++ toString resp.status ++ ")")) },
         [.putBingo3x3 s.draftBoard], []⟩
      else
        ⟨{ s with savedBoard := s.draftBoard }, [.putBingo3x3 s.draftBoard], []⟩

/-- `loadCommunityCards` from `App.tsx`: no-op without `apiUrl`; otherwise
issues `GET community/cards` and, only when the response is OK and `cards` is
an array, replaces the community list — with the default set substituted for
an empty array. -/
def loadCommunityCards (s : AppState) (r : CommunityFetch) : StepResult :=
  match s.apiUrl with
  | none => ⟨s, [], []⟩
  | some _ =>
    match r with
    | .notOk => ⟨s, [.getCommunityCards], []⟩
    | .okNoArray => ⟨s, [.getCommunityCards], []⟩
    | .okArray cards =>
      ⟨{ s with communityCards := if cards.length ≠ 0 then cards else DEFAULT_COMMUNITY_CARDS },
       [.getCommunityCards], []⟩

/-- `contributeCardToCommunity` from `App.tsx`. Oracle parameters: `newId`
for `crypto.randomUUID()`, `cardRect` for the clicked card's bounding
rectangle, `scrollerRect` for the carousel scroller's rectangle (if the
`[data-community-scroller]` element is found), `contribOk` for the
`POST contribute` response status, and `communityResp` for the follow-up
community-cards fetch. -/
def contributeCardToCommunity (s : AppState) (index : Nat) (newId : String)
    (cardRect : Rect) (scrollerRect : Option Rect) (contribOk : Bool)
    (communityResp : CommunityFetch) : StepResult :=
  match s.apiUrl with
  | none => ⟨s, [], []⟩
  | some _ =>
    match s.token with
    | none =>
      let r := showAuthToast s
      ⟨r.1, [], r.2⟩
    | some _ =>
      match s.draftBoard[index]? with
      | none => ⟨s, [], []⟩
      | some card =>
        let s1 :=
          if contribOk then
            match scrollerRect with
            | some toRect =>
              let ghost : FlyGhost :=
                { id := newId, text := card.text, backgroundColor := card.backgroundColor
                  fromRect := cardRect
                  toPt := ⟨toRect.x + 36, toRect.y + 48⟩ }
              { s with flyGhost := some ghost }
            | none => s
          else s
        let r2 := loadCommunityCards s1 communityResp
        ⟨r2.state, .postContribute card :: r2.calls, []⟩

/-- The `onCardTextChange` updater passed to `BingoBoard` in `App.tsx`:
`next = [...prev]; next[index] = { ...next[index]!, text: nextText }`.
The handler is only ever invoked with the in-range indices produced by the
board's `cards.map`; out-of-range indices are embedded as the identity. -/
def updateCardText (prev : List BoardCard) (index : Nat) (nextText : String) :
    List BoardCard :=
  match prev[index]? with
  | some c => prev.set index { c with text := nextText }
  | none => prev

/-- The shell-level effect of `onCardTextChange`: `setDraftBoard` with the
updater above. -/
def onCardTextChange (s : AppState) (index : Nat) (nextText : String) : AppState :=
  { s with draftBoard := updateCardText s.draftBoard index nextText }

/-! ### CommunityCarousel (`CommunityCarousel.tsx`) -/

/-- `loopCards` from `CommunityCarousel.tsx`: `[...cards, ...cards]`,
duplicating the list to create the infinite-loop effect. -/
def loopCards (cards : List CommunityCarouselCard) : List CommunityCarouselCard :=
  cards ++ cards

/-- Initial `activeId` state: `cards[0]?.id ?? null`. -/
def initialActiveId (cards : List CommunityCarouselCard) : Option String :=
  (cards.get? 0).map (·.id)

/-- Clicking a rendered carousel card: `setActiveId(c.id)`. -/
def clickCarouselCard (c : CommunityCarouselCard) : Option String :=
  some c.id

/-- The text a rendered carousel cell shows, from the render expression
`text={activeId === c.id ? c.text : ''}`. -/
def carouselCellText (activeId : Option String) (c : CommunityCarouselCard) : String :=
  if activeId = some c.id then c.text else ""

/-- The texts of all cells the carousel renders, in order: one `BingoCard`
per element of `loopCards`. -/
def carouselRenderedTexts (cards : List CommunityCarouselCard)
    (activeId : Option String) : List String :=
  (loopCards cards).map (carouselCellText activeId)

/-- `speedPxPerFrame` from the carousel tick effect: `0.35`. -/
def speedPxPerFrame : ℚ := 35 / 100

/-- One iteration of the carousel `tick` callback: when not paused, advance
`scrollTop` by `speedPxPerFrame`, then, with `half = scrollHeight / 2`, jump
back by `half` whenever the offset has reached it. -/
def carouselTick (half scrollTop : ℚ) (isPaused : Bool) : ℚ :=
  if isPaused then scrollTop
  else
    let y := scrollTop + speedPxPerFrame
    if half ≤ y then y - half else y

/-- The scroll offset after `n` ticks with the pause flag disabled. -/
def carouselRun (half x0 : ℚ) : Nat → ℚ
  | 0 => x0
  | n + 1 => carouselTick half (carouselRun half x0 n) false

/-! ### BingoBoard (bundled component source and `src/unnamed/part_001`) -/

/-- A card as the board component receives it (`BingoBoardCard`):
`backgroundColor` and `textColor` are optional. -/
structure BingoBoardCard where
  id : String
  text : String
  backgroundColor : Option String
  textColor : Option String
deriving DecidableEq, Repr

/-- What one grid cell passes to its `BingoCard`: the card's display fields
plus the board-level `editable`/`tossable` flags. -/
structure RenderedCell where
  text : String
  backgroundColor : Option String
  textColor : Option String
  editable : Bool
  tossable : Bool
deriving DecidableEq, Repr

/-- The `BingoCard` element rendered for one card of the board. -/
def renderBoardCell (editable tossable : Bool) (c : BingoBoardCard) : RenderedCell :=
  { text := c.text, backgroundColor := c.backgroundColor, textColor := c.textColor,
    editable := editable, tossable := tossable }

/-- The `BingoBoard` component: throws
`BingoBoard expects exactly 9 cards, got N` unless `cards.length == 9`,
otherwise renders `cards.map(...)` — one cell per card, in array order.
Both revisions (the bundled one and `src/unnamed/part_001`) share this
guard and this mapping. -/
def BingoBoard (cards : List BingoBoardCard) (editable tossable : Bool) :
    Except String (List RenderedCell) :=
  if cards.length ≠ 9 then
    .error ("BingoBoard expects exactly 9 cards, got " ++ toString cards.length)
  else
    .ok (cards.map (renderBoardCell editable tossable))

/-! ### BingoCard toss guard (`BingoCard.tsx`) -/

/-- The per-card component state: the `isTossing` `useState` flag. -/
structure TossState where
  isTossing : Bool
deriving DecidableEq, Repr

/-- The `toss` click handler of `BingoCard.tsx`: if `isTossing` it returns
without emitting; otherwise it sets the flag and calls `onToss` once. The
second component counts the `onToss` events emitted by the click. -/
def tossClick (s : TossState) : TossState × Nat :=
  if s.isTossing then (s, 0) else (⟨true⟩, 1)

/-- The card's `onAnimationEnd` handler: `setIsTossing(false)` when the toss
animation naturally completes. -/
def tossAnimationEnd (_s : TossState) : TossState :=
  ⟨false⟩

/-- The events the card component reacts to. -/
inductive TossEvent where
  | click
  | animEnd
deriving DecidableEq, Repr

/-- One event step of the card component, with the number of `onToss` events
it emits. -/
def tossStep (s : TossState) : TossEvent → TossState × Nat
  | .click => tossClick s
  | .animEnd => (tossAnimationEnd s, 0)

/-- Running a sequence of events, accumulating the emitted `onToss` count. -/
def tossRun (s : TossState) : List TossEvent → TossState × Nat
  | [] => (s, 0)
  | e :: es =>
    let r := tossStep s e
    let r2 := tossRun r.1 es
    (r2.1, r.2 + r2.2)

/-! ### Initial state and concrete sample data -/

/-- The initial shell state: the `useState` initial values of `App`, with the
configured `VITE_API_URL` as a parameter. -/
def initialAppState (apiUrl : Option String) : AppState :=
  { apiUrl := apiUrl, email := "", error := none, magicLink := none, magicCode := "",
    token := none, communityCards := DEFAULT_COMMUNITY_CARDS, toast := none,
    pulseEmail := false, flyGhost := none,
    draftBoard := createEmptyBoard, savedBoard := createEmptyBoard }

/-- A configured, unauthenticated shell state. -/
def demoState : AppState :=
  initialAppState (some "https://api.example/")

/-- A configured, authenticated shell state. -/
def demoStateAuthed : AppState :=
  { demoState with token := some "tok" }

/-- A sample community card as the backend could return it. -/
def demoCommunityCard : CommunityCarouselCard :=
  ⟨"c1", "cast on a cardigan", none, none⟩

/-- Two community cards with distinct ids, for carousel examples. -/
def demoCarouselCards : List CommunityCarouselCard :=
  [⟨"a", "hello", none, none⟩, ⟨"b", "world", none, none⟩]

/-- A nine-card board-component input. -/
def demoBoardCards9 : List BingoBoardCard :=
  (List.range 9).map fun i => ⟨toString (i + 1), "", some "#FFF4E6", none⟩

/-- A three-card (hence invalid) board-component input. -/
def demoBoardCards3 : List BingoBoardCard :=
  (List.range 3).map fun i => ⟨toString (i + 1), "", some "#FFF4E6", none⟩

end KnitBingo

namespace KnitBingo

/-! ## Theorems -/

/-- Claim C1: after a successful save (`PUT bingo3x3` returns ok), the saved
board equals the draft board by value, and any subsequent text edit of the
draft at any index leaves the saved board at its pre-edit value — the edit
updater copies the array rather than mutating it, so there is no aliasing
between the two copies. -/
theorem save_then_edit_preserves_saved (s : AppState) (u tk : String) (resp : HttpResp)
    (hu : s.apiUrl = some u) (ht : s.token = some tk) (hok : resp.ok = true) :
    (saveBoardToBackend s resp).state.savedBoard
      = (saveBoardToBackend s resp).state.draftBoard ∧
    ∀ i t, (onCardTextChange (saveBoardToBackend s resp).state i t).savedBoard
      = (saveBoardToBackend s resp).state.savedBoard := by
  simp [saveBoardToBackend, hu, ht, hok, onCardTextChange]

/-- Witness for C1 at a concrete authenticated state and OK response. -/
theorem save_then_edit_preserves_saved_witness :
    (saveBoardToBackend demoStateAuthed ⟨true, 200, none⟩).state.savedBoard
      = (saveBoardToBackend demoStateAuthed ⟨true, 200, none⟩).state.draftBoard ∧
    ∀ i t, (onCardTextChange (saveBoardToBackend demoStateAuthed ⟨true, 200, none⟩).state i t).savedBoard
      = (saveBoardToBackend demoStateAuthed ⟨true, 200, none⟩).state.savedBoard :=
  save_then_edit_preserves_saved demoStateAuthed "https://api.example/" "tok"
    ⟨true, 200, none⟩ rfl rfl rfl

/-- Claim C2: the board component throws unless it receives exactly 9 cards,
and with exactly 9 cards it renders nine cells, one per card, in the input
order of the array. -/
theorem bingoBoard_requires_nine_cards (cards : List BingoBoardCard) (e t : Bool) :
    (cards.length ≠ 9 →
      BingoBoard cards e t
        = .error ("BingoBoard expects exactly 9 cards, got " ++ toString cards.length)) ∧
    (cards.length = 9 →
      BingoBoard cards e t = .ok (cards.map (renderBoardCell e t)) ∧
      (cards.map (renderBoardCell e t)).length = 9 ∧
      ∀ i : Nat, (cards.map (renderBoardCell e t))[i]?
        = cards[i]?.map (renderBoardCell e t)) := by
  refine ⟨fun h => by simp [BingoBoard, h], fun h => ⟨by simp [BingoBoard, h], by simp [h], ?_⟩⟩
  intro i
  simp [List.getElem?_map]

/-- Witness for C2: a three-card input throws, a nine-card input renders nine
cells in order. -/
theorem bingoBoard_requires_nine_cards_witness :
    (BingoBoard demoBoardCards3 true true
      = .error ("BingoBoard expects exactly 9 cards, got " ++ toString demoBoardCards3.length)) ∧
    (BingoBoard demoBoardCards9 true true = .ok (demoBoardCards9.map (renderBoardCell true true)) ∧
      (demoBoardCards9.map (renderBoardCell true true)).length = 9 ∧
      ∀ i : Nat, (demoBoardCards9.map (renderBoardCell true true))[i]?
        = demoBoardCards9[i]?.map (renderBoardCell true true)) :=
  ⟨(bingoBoard_requires_nine_cards demoBoardCards3 true true).1 (by decide),
   (bingoBoard_requires_nine_cards demoBoardCards9 true true).2 (by decide)⟩

/-- Claim C8: a failed save (non-OK response on the issued `PUT`) leaves both
the draft board and the saved board unchanged and surfaces exactly one
message — the response body's `message` field, or the fallback
`Save failed (<status>)`. -/
theorem failed_save_preserves_state (s : AppState) (u tk : String) (resp : HttpResp)
    (hu : s.apiUrl = some u) (ht : s.token = some tk) (hfail : resp.ok = false) :
    (saveBoardToBackend s resp).state.draftBoard = s.draftBoard ∧
    (saveBoardToBackend s resp).state.savedBoard = s.savedBoard ∧
    (saveBoardToBackend s resp).state.error
      = some (resp.message.getD ("Save failed (" ++ toString resp.status ++ ")")) ∧
    (saveBoardToBackend s resp).calls = [.putBingo3x3 s.draftBoard] := by
  simp [saveBoardToBackend, hu, ht, hfail]

/-- Witness for C8 at a concrete authenticated state and a 500 response with
no message body. -/
theorem failed_save_preserves_state_witness :
    (saveBoardToBackend demoStateAuthed ⟨false, 500, none⟩).state.draftBoard
      = demoStateAuthed.draftBoard ∧
    (saveBoardToBackend demoStateAuthed ⟨false, 500, none⟩).state.savedBoard
      = demoStateAuthed.savedBoard ∧
    (saveBoardToBackend demoStateAuthed ⟨false, 500, none⟩).state.error
      = some ((none : Option String).getD ("Save failed (" ++ toString 500 ++ ")")) ∧
    (saveBoardToBackend demoStateAuthed ⟨false, 500, none⟩).calls
      = [.putBingo3x3 demoStateAuthed.draftBoard] :=
  failed_save_preserves_state demoStateAuthed "https://api.example/" "tok"
    ⟨false, 500, none⟩ rfl rfl rfl

/-- Claim C9: when the email contains a `+`, the magic-link request function
issues no network call and returns after setting an error, and the send
button is disabled. -/
theorem plus_email_blocks_request (s : AppState) (resp : HttpResp)
    (h : emailHasPlus s.email = true) :
    (requestMagicLink s resp).calls = [] ∧
    (requestMagicLink s resp).state.error.isSome = true ∧
    sendMagicCodeDisabled s.email = true := by
  refine ⟨?_, ?_, by simp [sendMagicCodeDisabled, h]⟩ <;>
    · unfold requestMagicLink
      cases hA : s.apiUrl <;> simp [h]

/-- Witness for C9 at a concrete state whose email is `a+b@example.com`. -/
theorem plus_email_blocks_request_witness :
    (requestMagicLink { demoState with email := "a+b@example.com" } ⟨true, 200, none⟩).calls = [] ∧
    (requestMagicLink { demoState with email := "a+b@example.com" } ⟨true, 200, none⟩).state.error.isSome
      = true ∧
    sendMagicCodeDisabled "a+b@example.com" = true :=
  plus_email_blocks_request { demoState with email := "a+b@example.com" }
    ⟨true, 200, none⟩ (by decide)

/-- Claim C10: on a nine-card draft board, the text-change updater at index
`i < 9` yields a nine-card board whose card `i` carries the new text with its
`id` and `backgroundColor` unchanged, and whose other cards are untouched. -/
theorem text_change_frame (b : List BoardCard) (i : Nat) (t : String)
    (hlen : b.length = 9) (hi : i < 9) :
    (updateCardText b i t).length = 9 ∧
    (∃ c, b[i]? = some c ∧
      (updateCardText b i t)[i]?
        = some { id := c.id, text := t, backgroundColor := c.backgroundColor }) ∧
    ∀ j : Nat, j ≠ i → (updateCardText b i t)[j]? = b[j]? := by
  have hib : i < b.length := by omega
  obtain ⟨c, hc⟩ : ∃ c, b[i]? = some c := ⟨b.get ⟨i, hib⟩, List.getElem?_eq_getElem hib⟩
  refine ⟨?_, ⟨c, hc, ?_⟩, ?_⟩
  · simp [updateCardText, hc, hlen]
  · simp [updateCardText, hc, List.getElem?_set_eq_of_lt _ hib]
  · intro j hj
    simp [updateCardText, hc, List.getElem?_set_ne (Ne.symm hj)]

/-- Witness for C10 on the empty starting board at index 2. -/
theorem text_change_frame_witness :
    (updateCardText createEmptyBoard 2 "knit a hat").length = 9 ∧
    (∃ c, createEmptyBoard[2]? = some c ∧
      (updateCardText createEmptyBoard 2 "knit a hat")[2]?
        = some { id := c.id, text := "knit a hat", backgroundColor := c.backgroundColor }) ∧
    ∀ j : Nat, j ≠ 2 → (updateCardText createEmptyBoard 2 "knit a hat")[j]?
      = createEmptyBoard[j]? :=
  text_change_frame createEmptyBoard 2 "knit a hat" (by decide) (by decide)

/-- One unpaused tick from a position in `[0, half)` stays in `[0, half)`
and either adds exactly the frame speed or additionally subtracts exactly
`half`. -/
theorem carouselTick_step (half x : ℚ) (h0 : 0 ≤ x) (h1 : x < half)
    (hs : speedPxPerFrame ≤ half) :
    (0 ≤ carouselTick half x false ∧ carouselTick half x false < half) ∧
    (carouselTick half x false = x + speedPxPerFrame ∨
     carouselTick half x false = x + speedPxPerFrame - half) := by
  have hsp : (0 : ℚ) < speedPxPerFrame := by norm_num [speedPxPerFrame]
  by_cases hc : half ≤ x + speedPxPerFrame
  · have ht : carouselTick half x false = x + speedPxPerFrame - half := by
      simp [carouselTick, hc]
    rw [ht]
    exact ⟨⟨by linarith, by linarith⟩, Or.inr rfl⟩
  · have ht : carouselTick half x false = x + speedPxPerFrame := by
      simp [carouselTick, hc]
    rw [ht]
    exact ⟨⟨by linarith, by linarith⟩, Or.inl rfl⟩

/-- The offset stays in `[0, half)` after every number of unpaused ticks. -/
theorem carouselRun_mem (half x0 : ℚ) (h0 : 0 ≤ x0) (h1 : x0 < half)
    (hs : speedPxPerFrame ≤ half) (n : Nat) :
    0 ≤ carouselRun half x0 n ∧ carouselRun half x0 n < half := by
  induction n with
  | zero => exact ⟨h0, h1⟩
  | succ n ih => exact (carouselTick_step half _ ih.1 ih.2 hs).1

/-- Claim C3: over any run of unpaused ticks started in `[0, half)` (with the
frame speed at most `half`, i.e. the carousel has actual scrollable content),
the offset stays in `[0, half)` after every tick, and each tick either adds
exactly the frame speed — hence is non-decreasing — or is a wraparound that
additionally subtracts exactly `half`, never any other amount. -/
theorem carousel_tick_invariant (half x0 : ℚ) (n : Nat) (h0 : 0 ≤ x0) (h1 : x0 < half)
    (hs : speedPxPerFrame ≤ half) :
    (0 ≤ carouselRun half x0 n ∧ carouselRun half x0 n < half) ∧
    (carouselRun half x0 (n + 1) = carouselRun half x0 n + speedPxPerFrame ∨
     carouselRun half x0 (n + 1) = carouselRun half x0 n + speedPxPerFrame - half) ∧
    (carouselRun half x0 (n + 1) = carouselRun half x0 n + speedPxPerFrame →
      carouselRun half x0 n ≤ carouselRun half x0 (n + 1)) := by
  have hmem := carouselRun_mem half x0 h0 h1 hs n
  have hstep := carouselTick_step half (carouselRun half x0 n) hmem.1 hmem.2 hs
  have hsp : (0 : ℚ) < speedPxPerFrame := by norm_num [speedPxPerFrame]
  exact ⟨hmem, hstep.2, fun h => by rw [h]; linarith⟩

/-- Witness for C3: `half = 10`, start at `0`, third tick. -/
theorem carousel_tick_invariant_witness :
    ((0 : ℚ) ≤ carouselRun 10 0 3 ∧ carouselRun 10 0 3 < 10) ∧
    (carouselRun 10 0 4 = carouselRun 10 0 3 + speedPxPerFrame ∨
     carouselRun 10 0 4 = carouselRun 10 0 3 + speedPxPerFrame - 10) ∧
    (carouselRun 10 0 4 = carouselRun 10 0 3 + speedPxPerFrame →
      carouselRun 10 0 3 ≤ carouselRun 10 0 4) :=
  carousel_tick_invariant 10 0 3 (by norm_num) (by norm_num)
    (by norm_num [speedPxPerFrame])

/-- While the toss flag is set, any sequence of events that does not include
the animation-completion event leaves the component in the same state and
emits nothing. -/
theorem tossRun_while_tossing (es : List TossEvent) (h : TossEvent.animEnd ∉ es) :
    tossRun ⟨true⟩ es = (⟨true⟩, 0) := by
  induction es with
  | nil => rfl
  | cons e es ih =>
    match e with
    | .click =>
      have hes : TossEvent.animEnd ∉ es := fun hm => h (List.mem_cons_of_mem _ hm)
      simp [tossRun, tossStep, tossClick, ih hes]
    | .animEnd => exact absurd (List.mem_cons_self _ _) h

/-- Claim C4: a click emits at most one `onToss` event and leaves the toss
flag set; while the flag is set (a prior toss animation still playing), any
further clicks — indeed any events short of the animation's natural
completion — emit nothing; and the completion event resets the flag. -/
theorem toss_click_guard (s : TossState) (es : List TossEvent)
    (h : TossEvent.animEnd ∉ es) :
    (tossClick s).2 ≤ 1 ∧
    (tossClick s).1.isTossing = true ∧
    (s.isTossing = true → tossRun s es = (s, 0)) ∧
    (tossAnimationEnd s).isTossing = false := by
  obtain ⟨b⟩ := s
  refine ⟨?_, ?_, ?_, rfl⟩
  · cases b <;> simp [tossClick]
  · cases b <;> simp [tossClick]
  · intro hb
    cases b with
    | true => exact tossRun_while_tossing es h
    | false => simp at hb

/-- Witness for C4: with the animation in flight, two further clicks emit no
event and leave the flag set. -/
theorem toss_click_guard_witness :
    (tossClick ⟨true⟩).2 ≤ 1 ∧
    (tossClick ⟨true⟩).1.isTossing = true ∧
    ((⟨true⟩ : TossState).isTossing = true →
      tossRun ⟨true⟩ [.click, .click] = (⟨true⟩, 0)) ∧
    (tossAnimationEnd ⟨true⟩).isTossing = false :=
  toss_click_guard ⟨true⟩ [.click, .click] (by decide)

/-- Claim C7: with no auth token (and the API URL configured), clicking
Contribute issues no network call; it sets the toast to exactly
`Log in to contribute and save your bingo.`, pulses the email field, leaves
the draft board, saved board and token unchanged, and schedules the toast
auto-dismiss timeout, whose firing clears the toast. -/
theorem unauthenticated_contribute_toast (s : AppState) (u : String) (i : Nat)
    (newId : String) (cardRect : Rect) (scrollerRect : Option Rect) (contribOk : Bool)
    (cf : CommunityFetch) (hu : s.apiUrl = some u) (ht : s.token = none) :
    (contributeCardToCommunity s i newId cardRect scrollerRect contribOk cf).calls = [] ∧
    (contributeCardToCommunity s i newId cardRect scrollerRect contribOk cf).state.toast
      = some "Log in to contribute and save your bingo." ∧
    (contributeCardToCommunity s i newId cardRect scrollerRect contribOk cf).state.pulseEmail
      = true ∧
    (contributeCardToCommunity s i newId cardRect scrollerRect contribOk cf).state.draftBoard
      = s.draftBoard ∧
    (contributeCardToCommunity s i newId cardRect scrollerRect contribOk cf).state.savedBoard
      = s.savedBoard ∧
    (contributeCardToCommunity s i newId cardRect scrollerRect contribOk cf).state.token
      = s.token ∧
    (⟨2800, .dismissToast⟩ : Timer)
      ∈ (contributeCardToCommunity s i newId cardRect scrollerRect contribOk cf).timers ∧
    (applyTimer (contributeCardToCommunity s i newId cardRect scrollerRect contribOk cf).state
      .dismissToast).toast = none := by
  simp [contributeCardToCommunity, hu, ht, showAuthToast, applyTimer]

/-- Witness for C7 at the concrete unauthenticated demo state. -/
theorem unauthenticated_contribute_toast_witness :
    (contributeCardToCommunity demoState 0 "g1" ⟨1, 2, 3, 4⟩ none true .notOk).calls = [] ∧
    (contributeCardToCommunity demoState 0 "g1" ⟨1, 2, 3, 4⟩ none true .notOk).state.toast
      = some "Log in to contribute and save your bingo." ∧
    (contributeCardToCommunity demoState 0 "g1" ⟨1, 2, 3, 4⟩ none true .notOk).state.pulseEmail
      = true ∧
    (contributeCardToCommunity demoState 0 "g1" ⟨1, 2, 3, 4⟩ none true .notOk).state.draftBoard
      = demoState.draftBoard ∧
    (contributeCardToCommunity demoState 0 "g1" ⟨1, 2, 3, 4⟩ none true .notOk).state.savedBoard
      = demoState.savedBoard ∧
    (contributeCardToCommunity demoState 0 "g1" ⟨1, 2, 3, 4⟩ none true .notOk).state.token
      = demoState.token ∧
    (⟨2800, .dismissToast⟩ : Timer)
      ∈ (contributeCardToCommunity demoState 0 "g1" ⟨1, 2, 3, 4⟩ none true .notOk).timers ∧
    (applyTimer (contributeCardToCommunity demoState 0 "g1" ⟨1, 2, 3, 4⟩ none true .notOk).state
      .dismissToast).toast = none :=
  unauthenticated_contribute_toast demoState "https://api.example/" 0 "g1"
    ⟨1, 2, 3, 4⟩ none true .notOk rfl rfl

/-- In a card list with pairwise-distinct ids, exactly one card carries any
id that occurs in the list. -/
theorem countP_id_of_nodup (cards : List CommunityCarouselCard) (a : String)
    (hnd : (cards.map (·.id)).Nodup) (h : a ∈ cards.map (·.id)) :
    cards.countP (fun d => d.id == a) = 1 := by
  induction cards with
  | nil => simp at h
  | cons x xs ih =>
    rw [List.map_cons, List.nodup_cons] at hnd
    rw [List.countP_cons]
    have h2 : a = x.id ∨ ∃ b ∈ xs, b.id = a := by simpa using h
    rcases h2 with h1 | ⟨b, hb, hba⟩
    · have hz : xs.countP (fun d => d.id == a) = 0 := by
        rw [List.countP_eq_zero]
        intro d hd hda
        have hmd : d.id ∈ xs.map (·.id) := List.mem_map_of_mem _ hd
        have hda2 : d.id = a := by simpa using hda
        rw [hda2, h1] at hmd
        exact hnd.1 hmd
      subst h1
      simp [hz]
    · have hmem : a ∈ xs.map (·.id) := List.mem_map.mpr ⟨b, hb, hba⟩
      have hx : (x.id == a) = false := by
        by_contra hfx
        have hxa : x.id = a := by simpa using hfx
        exact hnd.1 (hxa ▸ hmem)
      rw [ih hnd.2 hmem, hx]
      simp

/-- Counterexample to claim C5 as stated: with two distinct community cards,
after clicking the first card the carousel renders four cells of which TWO —
both duplicated copies of the clicked card — show its full text, not exactly
one. -/
theorem carousel_reveal_not_unique :
    carouselRenderedTexts demoCarouselCards
        (clickCarouselCard ⟨"a", "hello", none, none⟩)
      = ["hello", "", "hello", ""] ∧
    ¬ ((carouselRenderedTexts demoCarouselCards
          (clickCarouselCard ⟨"a", "hello", none, none⟩)).filter
        (fun t => t != "")).length = 1 := by
  constructor <;> decide

/-- Claim C5 as amended: the rendered sequence is the input list concatenated
with itself once (element `i` is input element `i mod n`), and after clicking
a card, a rendered cell shows its full text exactly when its card's id equals
the clicked card's id — with distinct ids, that is the clicked card's two
duplicated copies (two cells, all other cells blank). -/
theorem carousel_loop_and_reveal (cards : List CommunityCarouselCard)
    (c : CommunityCarouselCard) (i : Nat)
    (hi : i < (loopCards cards).length)
    (hnd : (cards.map (·.id)).Nodup) (hc : c ∈ cards) :
    loopCards cards = cards ++ cards ∧
    (loopCards cards)[i]? = cards[i % cards.length]? ∧
    (∀ d : CommunityCarouselCard,
      carouselCellText (clickCarouselCard c) d
        = if d.id = c.id then d.text else "") ∧
    (loopCards cards).countP (fun d => d.id == c.id) = 2 := by
  have hn : 0 < cards.length := by
    rcases cards with _ | ⟨x, xs⟩
    · simp [loopCards] at hi
    · simp
  refine ⟨rfl, ?_, ?_, ?_⟩
  · rw [show loopCards cards = cards ++ cards from rfl, List.getElem?_append]
    by_cases hlt : i < cards.length
    · rw [if_pos hlt, Nat.mod_eq_of_lt hlt]
    · have hge : cards.length ≤ i := Nat.le_of_not_lt hlt
      have hsub : i - cards.length < cards.length := by
        have hi2 := hi
        simp only [loopCards, List.length_append] at hi2
        omega
      rw [if_neg hlt, Nat.mod_eq_sub_mod hge, Nat.mod_eq_of_lt hsub]
  · intro d
    by_cases hd : d.id = c.id
    · simp [carouselCellText, clickCarouselCard, hd]
    · have hdc : ¬(c.id = d.id) := fun h => hd h.symm
      simp [carouselCellText, clickCarouselCard, hd, hdc]
  · rw [show loopCards cards = cards ++ cards from rfl, List.countP_append,
      countP_id_of_nodup cards c.id hnd (List.mem_map_of_mem (·.id) hc)]

/-- Witness for the amended C5 at the two-card demo list, cell index 3. -/
theorem carousel_loop_and_reveal_witness :
    loopCards demoCarouselCards = demoCarouselCards ++ demoCarouselCards ∧
    (loopCards demoCarouselCards)[3]? = demoCarouselCards[3 % demoCarouselCards.length]? ∧
    (∀ d : CommunityCarouselCard,
      carouselCellText (clickCarouselCard ⟨"a", "hello", none, none⟩) d
        = if d.id = (⟨"a", "hello", none, none⟩ : CommunityCarouselCard).id then d.text else "") ∧
    (loopCards demoCarouselCards).countP
      (fun d => d.id == (⟨"a", "hello", none, none⟩ : CommunityCarouselCard).id) = 2 :=
  carousel_loop_and_reveal demoCarouselCards ⟨"a", "hello", none, none⟩ 3
    (by decide) (by decide) (by decide)

/-- Counterexample to claim C6 as stated: after a successful non-empty fetch,
a subsequent FAILED fetch leaves the previously fetched list displayed — not
the built-in default set. -/
theorem community_failure_keeps_previous :
    (loadCommunityCards
        (loadCommunityCards demoState (.okArray [demoCommunityCard])).state
        .notOk).state.communityCards = [demoCommunityCard] ∧
    [demoCommunityCard] ≠ DEFAULT_COMMUNITY_CARDS := by
  refine ⟨rfl, fun h => ?_⟩
  have hlen := congrArg List.length h
  simp [DEFAULT_COMMUNITY_CARDS] at hlen

/-- Claim C6 as amended: a fetch that returns an empty card list displays the
built-in 15-item default set; a FAILED fetch leaves the displayed list
unchanged — in particular it remains the default set (the initial state)
until some successful non-empty fetch replaces it — and the displayed list is
never empty. -/
theorem community_fetch_fallback (s : AppState) (u : String) (r : CommunityFetch)
    (hu : s.apiUrl = some u) (hne : s.communityCards ≠ []) :
    (loadCommunityCards s (.okArray [])).state.communityCards = DEFAULT_COMMUNITY_CARDS ∧
    DEFAULT_COMMUNITY_CARDS.length = 15 ∧
    (loadCommunityCards s .notOk).state.communityCards = s.communityCards ∧
    (initialAppState (some u)).communityCards = DEFAULT_COMMUNITY_CARDS ∧
    (loadCommunityCards s r).state.communityCards ≠ [] := by
  refine ⟨by simp [loadCommunityCards, hu], by simp [DEFAULT_COMMUNITY_CARDS],
    by simp [loadCommunityCards, hu], rfl, ?_⟩
  match r with
  | .notOk => simpa [loadCommunityCards, hu] using hne
  | .okNoArray => simpa [loadCommunityCards, hu] using hne
  | .okArray cs =>
    by_cases hcs : cs.length = 0
    · simp [loadCommunityCards, hu, hcs, DEFAULT_COMMUNITY_CARDS]
    · simpa [loadCommunityCards, hu, hcs] using List.ne_nil_of_length_pos (by omega)

/-- Witness for the amended C6 at a state displaying one fetched card. -/
theorem community_fetch_fallback_witness :
    (loadCommunityCards { demoState with communityCards := [demoCommunityCard] }
        (.okArray [])).state.communityCards = DEFAULT_COMMUNITY_CARDS ∧
    DEFAULT_COMMUNITY_CARDS.length = 15 ∧
    (loadCommunityCards { demoState with communityCards := [demoCommunityCard] }
        .notOk).state.communityCards
      = ({ demoState with communityCards := [demoCommunityCard] } : AppState).communityCards ∧
    (initialAppState (some "https://api.example/")).communityCards = DEFAULT_COMMUNITY_CARDS ∧
    (loadCommunityCards { demoState with communityCards := [demoCommunityCard] }
        .notOk).state.communityCards ≠ [] :=
  community_fetch_fallback { demoState with communityCards := [demoCommunityCard] }
    "https://api.example/" .notOk rfl (by simp)

end KnitBingo
